import Mathlib

/-!
Verification of the client-side enhancement layer in `script.js`:
validator, contact-form handler, notification (toast) subsystem,
scroll effects, mobile navigation, and project-link handling.
Each JavaScript function is shallowly embedded as an executable Lean
definition; DOM mutation is modelled as explicit state passing and
timers as an explicit queue of scheduled actions.
-/

/-! ## Validator (`is_valid_email`, script.js lines 143-146)

The source tests the string against the regular expression
`^[^\s@]+@[^\s@]+\.[^\s@]+$`.  We embed `regex.test` by its existential
semantics: some split of the character list into the three segments,
the literal `@` and the literal `.` succeeds.  The search over split
points is executable (a bounded `any` over all positions). -/

/-- A character matched by the regex class `[^\s@]`: any character that is
neither whitespace nor the at sign. -/
def is_email_char (c : Char) : Bool :=
  !c.isWhitespace && decide (c ≠ '@')

/-- Matching of the regex piece `[^\s@]+`: a non-empty run of email characters. -/
def seg_match (l : List Char) : Bool :=
  decide (l ≠ []) && l.all is_email_char

/-- Executable embedding of `/^[^\s@]+@[^\s@]+\.[^\s@]+$/.test`: search all
positions `i` for the `@` and all positions `j` (within the remainder) for
the `.`, requiring the three segments around them to match `[^\s@]+`. -/
def email_regex_test (s : List Char) : Bool :=
  (List.range s.length).any fun i =>
    decide (s.get? i = some '@') && seg_match (s.take i) &&
      ((List.range (s.length - (i + 1))).any fun j =>
        decide ((s.drop (i + 1)).get? j = some '.') &&
          seg_match ((s.drop (i + 1)).take j) &&
          seg_match ((s.drop (i + 1)).drop (j + 1)))

/-- `is_valid_email` from script.js: apply the regex test to the string. -/
def is_valid_email (email : String) : Bool :=
  email_regex_test email.data

/-- The pattern stated by the specification, as a proposition: one or more
non-whitespace-non-@ characters, `@`, one or more non-whitespace-non-@
characters, `.`, one or more non-whitespace-non-@ characters, anchored at
both ends. -/
def email_pattern_spec (s : List Char) : Prop :=
  ∃ a b c : List Char,
    s = a ++ '@' :: (b ++ '.' :: c) ∧
    a ≠ [] ∧ b ≠ [] ∧ c ≠ [] ∧
    (∀ ch ∈ a, ¬ch.isWhitespace ∧ ch ≠ '@') ∧
    (∀ ch ∈ b, ¬ch.isWhitespace ∧ ch ≠ '@') ∧
    (∀ ch ∈ c, ¬ch.isWhitespace ∧ ch ≠ '@')

lemma seg_match_iff (l : List Char) :
    seg_match l = true ↔ l ≠ [] ∧ ∀ ch ∈ l, ¬ch.isWhitespace ∧ ch ≠ '@' := by
  simp [seg_match, is_email_char, List.all_eq_true, Bool.and_eq_true,
    decide_eq_true_iff, Bool.not_eq_true']

lemma get?_split {α : Type} (l : List α) (i : Nat) (x : α)
    (h : l.get? i = some x) : l = l.take i ++ x :: l.drop (i + 1) := by
  induction l generalizing i with
  | nil => simp [List.get?] at h
  | cons hd tl ih =>
    cases i with
    | zero =>
      simp [List.get?] at h
      subst h
      simp
    | succ n =>
      simp only [List.get?] at h
      simpa using ih n h

lemma get?_append_cons {α : Type} (a t : List α) (x : α) :
    (a ++ x :: t).get? a.length = some x := by
  induction a with
  | nil => rfl
  | cons hd tl ih => simpa using ih

lemma take_append_cons {α : Type} (a t : List α) (x : α) :
    (a ++ x :: t).take a.length = a := by
  induction a with
  | nil => rfl
  | cons hd tl ih => simp [ih]

lemma drop_append_cons {α : Type} (a t : List α) (x : α) :
    (a ++ x :: t).drop (a.length + 1) = t := by
  induction a with
  | nil => rfl
  | cons hd tl ih => simp [ih]

lemma email_regex_correct (s : List Char) :
    email_regex_test s = true ↔ email_pattern_spec s := by
  constructor
  · intro h
    rw [email_regex_test, List.any_eq_true] at h
    obtain ⟨i, hi, hp⟩ := h
    rw [List.mem_range] at hi
    simp only [Bool.and_eq_true, decide_eq_true_iff, List.any_eq_true,
      List.mem_range] at hp
    obtain ⟨⟨hat, hsega⟩, j, hj, ⟨hdot, hsegb⟩, hsegc⟩ := hp
    refine ⟨s.take i, (s.drop (i + 1)).take j, (s.drop (i + 1)).drop (j + 1),
      ?_, ?_, ?_, ?_, ?_, ?_, ?_⟩
    · conv_lhs => rw [get?_split s i '@' hat]
      exact congrArg (fun l => s.take i ++ '@' :: l)
        (get?_split (s.drop (i + 1)) j '.' hdot)
    · exact ((seg_match_iff _).1 hsega).1
    · exact ((seg_match_iff _).1 hsegb).1
    · exact ((seg_match_iff _).1 hsegc).1
    · exact ((seg_match_iff _).1 hsega).2
    · exact ((seg_match_iff _).1 hsegb).2
    · exact ((seg_match_iff _).1 hsegc).2
  · rintro ⟨a, b, c, rfl, ha, hb, hc, hfa, hfb, hfc⟩
    rw [email_regex_test, List.any_eq_true]
    refine ⟨a.length, ?_, ?_⟩
    · rw [List.mem_range]
      simp [List.length_append]
    · simp only [Bool.and_eq_true, decide_eq_true_iff, List.any_eq_true,
        List.mem_range]
      refine ⟨⟨get?_append_cons a _ '@', ?_⟩, b.length, ?_, ⟨?_, ?_⟩, ?_⟩
      · rw [take_append_cons]
        exact (seg_match_iff a).2 ⟨ha, hfa⟩
      · simp only [List.length_append, List.length_cons]
        omega
      · rw [drop_append_cons]
        exact get?_append_cons b c '.'
      · rw [drop_append_cons, take_append_cons]
        exact (seg_match_iff b).2 ⟨hb, hfb⟩
      · rw [drop_append_cons, drop_append_cons]
        exact (seg_match_iff c).2 ⟨hc, hfc⟩

/-! ## Contact-form submit handler (`setup_form_handling`, lines 77-103)

The handler reads the three fields, checks each with the JavaScript falsy
test (`!name || !email || !message`) -- for a string value this is true
exactly when the string is empty -- then validates the email, and in each
branch calls `show_notification` exactly once; only the success branch
resets the form. -/

/-- Result of one submit-handler run: the `show_notification` calls it made
(message, kind) in order, and whether it called `this.reset()`. -/
structure SubmitResult where
  notifications : List (String × String)
  did_reset : Bool
deriving DecidableEq

/-- The submit listener body from `setup_form_handling`.  `!x` on a
JavaScript string is true exactly for the empty string. -/
def handle_submit (name email message : String) : SubmitResult :=
  if name = "" || email = "" || message = "" then
    { notifications := [("Please fill in all fields", "error")], did_reset := false }
  else if !is_valid_email email then
    { notifications := [("Please enter a valid email address", "error")], did_reset := false }
  else
    { notifications := [("Thank you for your message! I\x27ll get back to you soon.", "success")],
      did_reset := true }

/-! ## Notification subsystem (`show_notification`, lines 153-212)

The document is modelled by the list of notification elements currently
attached (in document order), together with the queue of scheduled
timeout callbacks and the current time.  `querySelector` returns the
first match; `element.remove()` detaches an element and is a no-op on an
already-detached element; `setTimeout` appends to the queue. -/

/-- The inline background colour chosen by `show_notification`:
the ternary on line 175 of script.js. -/
def notification_background (kind : String) : String :=
  if kind = "success" then "#10b981" else "#ef4444"

/-- A notification element: identity, kind, message, current `transform`
style and `background` style. -/
structure Notif where
  nid : Nat
  kind : String
  message : String
  transform : String
  background : String
deriving DecidableEq

/-- The callbacks `show_notification` and the close handler schedule. -/
inductive TimerAction where
  | animateIn
  | autoDismiss
  | removeElem
deriving DecidableEq

/-- A scheduled `setTimeout` callback: when it fires, which notification
element it targets, what it does. -/
structure Timer where
  fireAt : Nat
  target : Nat
  action : TimerAction
deriving DecidableEq

/-- The modelled document: attached notification elements in document
order, pending timers, current time, and a fresh-identity counter for
newly created elements. -/
structure DomState where
  notifs : List Notif
  timers : List Timer
  now : Nat
  nextId : Nat
deriving DecidableEq

def hiddenTransform : String := "translateX(100%)"

def visibleTransform : String := "translateX(0)"

def notif_ids (l : List Notif) : List Nat := l.map Notif.nid

/-- `document.querySelector(".notification")` followed by `.remove()`:
detach the first notification element, if any. -/
def remove_existing : List Notif → List Notif
  | [] => []
  | _ :: rest => rest

/-- Setting `style.transform` on the element with identity `id` (a no-op
on the document when the element is not attached). -/
def set_transform (id : Nat) (t : String) (l : List Notif) : List Notif :=
  l.map fun n => if n.nid = id then { n with transform := t } else n

/-- `element.remove()` for the element with identity `id`: detach it if
attached, otherwise change nothing (the DOM operation never throws). -/
def remove_elem (id : Nat) (l : List Notif) : List Notif :=
  l.filter fun n => n.nid ≠ id

/-- `show_notification(message, type)`: remove any existing notification
immediately, create the new element hidden (translated off-screen) with
the kind-dependent background, append it to the body, and schedule the
100ms animate-in and the 5000ms auto-dismiss callbacks. -/
def show_notification (message kind : String) (st : DomState) : DomState :=
  { notifs := remove_existing st.notifs ++
      [{ nid := st.nextId, kind := kind, message := message,
         transform := hiddenTransform,
         background := notification_background kind }]
    timers := st.timers ++
      [{ fireAt := st.now + 100, target := st.nextId, action := .animateIn },
       { fireAt := st.now + 5000, target := st.nextId, action := .autoDismiss }]
    now := st.now
    nextId := st.nextId + 1 }

/-- The close-button click handler registered by `show_notification`:
slide the element out and schedule its removal 300ms later.  The handler
body has no attachment guard and never throws. -/
def close_click (id : Nat) (st : DomState) : DomState :=
  { st with
    notifs := set_transform id hiddenTransform st.notifs
    timers := st.timers ++
      [{ fireAt := st.now + 300, target := id, action := .removeElem }] }

/-- Execute a fired timer callback.  `animateIn` slides the element in;
`autoDismiss` checks `notification.parentNode` (the element is still
attached) and only then hides the element and schedules its removal;
`removeElem` calls `element.remove()`. -/
def run_action (id : Nat) (a : TimerAction) (st : DomState) : DomState :=
  match a with
  | .animateIn => { st with notifs := set_transform id visibleTransform st.notifs }
  | .autoDismiss =>
      if id ∈ notif_ids st.notifs then
        { st with
          notifs := set_transform id hiddenTransform st.notifs
          timers := st.timers ++
            [{ fireAt := st.now + 300, target := id, action := .removeElem }] }
      else st
  | .removeElem => { st with notifs := remove_elem id st.notifs }

/-- The events the notification subsystem reacts to. -/
inductive NEvent where
  | showCall (message kind : String)
  | closeClick (id : Nat)
  | fire (i : Nat)
  | tick (d : Nat)

/-- One step of the event loop: a call to `show_notification`, a click on
a close button, a due timer firing (it is consumed from the queue), or
time passing. -/
def step : NEvent → DomState → DomState
  | .showCall m k, st => show_notification m k st
  | .closeClick id, st => close_click id st
  | .fire i, st =>
      match st.timers.get? i with
      | some t =>
          if t.fireAt ≤ st.now then
            run_action t.target t.action { st with timers := st.timers.eraseIdx i }
          else st
      | none => st
  | .tick d, st => { st with now := st.now + d }

/-- The empty document the page starts with. -/
def dom_init : DomState := { notifs := [], timers := [], now := 0, nextId := 0 }

/-- States reachable from the empty document by event-loop steps. -/
inductive Reachable : DomState → Prop
  | init : Reachable dom_init
  | step (e : NEvent) {st : DomState} : Reachable st → Reachable (step e st)

/-- The document invariant: at most one notification element is attached,
and every attached element has an identity below the freshness counter. -/
def dom_inv (st : DomState) : Prop :=
  st.notifs.length ≤ 1 ∧ ∀ n ∈ st.notifs, n.nid < st.nextId

lemma set_transform_length (id : Nat) (t : String) (l : List Notif) :
    (set_transform id t l).length = l.length := by
  simp [set_transform]

lemma mem_set_transform {id : Nat} {t : String} {l : List Notif} {n : Notif}
    (h : n ∈ set_transform id t l) :
    ∃ m ∈ l, m.nid = n.nid := by
  simp only [set_transform, List.mem_map] at h
  obtain ⟨m, hm, hmn⟩ := h
  refine ⟨m, hm, ?_⟩
  by_cases hid : m.nid = id <;> simp [hid] at hmn <;> simp [← hmn, hid]

lemma run_action_inv {st : DomState} (id : Nat) (a : TimerAction)
    (h : dom_inv st) : dom_inv (run_action id a st) := by
  obtain ⟨hlen, hid⟩ := h
  cases a with
  | animateIn =>
    refine ⟨?_, ?_⟩
    · show (set_transform id visibleTransform st.notifs).length ≤ 1
      simpa [set_transform_length] using hlen
    · intro n hn
      obtain ⟨m, hm, hmn⟩ := mem_set_transform hn
      show n.nid < st.nextId
      rw [← hmn]
      exact hid m hm
  | autoDismiss =>
    by_cases hmem : id ∈ notif_ids st.notifs
    · have hrw : run_action id .autoDismiss st =
          { st with
            notifs := set_transform id hiddenTransform st.notifs
            timers := st.timers ++
              [{ fireAt := st.now + 300, target := id, action := .removeElem }] } := by
        simp [run_action, hmem]
      rw [hrw]
      refine ⟨?_, ?_⟩
      · show (set_transform id hiddenTransform st.notifs).length ≤ 1
        simpa [set_transform_length] using hlen
      · intro n hn
        obtain ⟨m, hm, hmn⟩ := mem_set_transform hn
        show n.nid < st.nextId
        rw [← hmn]
        exact hid m hm
    · have hrw : run_action id .autoDismiss st = st := by simp [run_action, hmem]
      rw [hrw]
      exact ⟨hlen, hid⟩
  | removeElem =>
    refine ⟨le_trans (List.length_filter_le _ _) hlen, ?_⟩
    intro n hn
    simp only [run_action, remove_elem, List.mem_filter] at hn
    exact hid n hn.1

lemma mem_remove_existing {l : List Notif} {n : Notif}
    (h : n ∈ remove_existing l) : n ∈ l := by
  cases l with
  | nil => simp [remove_existing] at h
  | cons x xs => simp only [remove_existing] at h; exact List.mem_cons_of_mem x h

lemma show_notification_inv {st : DomState} (m k : String)
    (h : dom_inv st) : dom_inv (show_notification m k st) := by
  obtain ⟨hlen, hid⟩ := h
  constructor
  · show (remove_existing st.notifs ++ [_]).length ≤ 1
    rcases hns : st.notifs with _ | ⟨x, xs⟩
    · simp [remove_existing]
    · rcases xs with _ | ⟨y, ys⟩
      · simp [remove_existing]
      · exfalso
        rw [hns] at hlen
        simp only [List.length_cons] at hlen
        omega
  · intro n hn
    simp only [show_notification, List.mem_append, List.mem_singleton] at hn
    show n.nid < st.nextId + 1
    rcases hn with hn | hn
    · exact Nat.lt_succ_of_lt (hid n (mem_remove_existing hn))
    · rw [hn]
      exact Nat.lt_succ_self _

lemma step_inv (e : NEvent) {st : DomState} (h : dom_inv st) :
    dom_inv (step e st) := by
  obtain ⟨hlen, hid⟩ := h
  cases e with
  | showCall m k => exact show_notification_inv m k ⟨hlen, hid⟩
  | closeClick id =>
    refine ⟨?_, ?_⟩
    · show (set_transform id hiddenTransform st.notifs).length ≤ 1
      simpa [set_transform_length] using hlen
    · intro n hn
      simp only [step, close_click] at hn
      obtain ⟨m2, hm2, hmn⟩ := mem_set_transform hn
      show n.nid < st.nextId
      rw [← hmn]
      exact hid m2 hm2
  | fire i =>
    simp only [step]
    cases hti : st.timers.get? i with
    | none => exact ⟨hlen, hid⟩
    | some t =>
      show dom_inv (if t.fireAt ≤ st.now then
          run_action t.target t.action { st with timers := st.timers.eraseIdx i }
        else st)
      by_cases hdue : t.fireAt ≤ st.now
      · rw [if_pos hdue]
        exact run_action_inv t.target t.action ⟨hlen, hid⟩
      · rw [if_neg hdue]
        exact ⟨hlen, hid⟩
  | tick d => exact ⟨hlen, hid⟩

lemma reachable_inv {st : DomState} (h : Reachable st) : dom_inv st := by
  induction h with
  | init => exact ⟨by simp [dom_init], by simp [dom_init]⟩
  | step e h ih => exact step_inv e ih

/-! ## Scroll effects (`setup_scroll_effects`, lines 108-117)

The scroll listener recomputes the header's `scrolled` class from the
current vertical offset on every event. -/

/-- `classList.add`: append the class if it is not already present. -/
def add_class (c : String) (cs : List String) : List String :=
  if c ∈ cs then cs else cs ++ [c]

/-- `classList.remove`: drop every occurrence of the class. -/
def remove_class (c : String) (cs : List String) : List String :=
  cs.filter fun x => x ≠ c

/-- `classList.contains`. -/
def has_class (c : String) (cs : List String) : Prop := c ∈ cs

instance (c : String) (cs : List String) : Decidable (has_class c cs) := by
  unfold has_class
  infer_instance

/-- The scroll listener body: `if (window.scrollY > 100) add else remove`,
applied to the header's class list. -/
def handle_scroll_header (scrollY : Int) (header : List String) : List String :=
  if scrollY > 100 then add_class "scrolled" header
  else remove_class "scrolled" header

/-! ## Mobile navigation (`setup_mobile_navigation`, lines 25-48, and the
top-level resize listener, lines 273-279)

The menu is open exactly when the `active` class is set on the menu
element; the toggle button carries a matching `active` class.  Events:
the toggle click, a navigation-link click, a document click outside both
elements, and a window resize carrying the new viewport width. -/

/-- Mobile navigation state: the two `active` flags and the viewport
width. -/
structure NavState where
  toggleActive : Bool
  menuActive : Bool
  width : Nat
deriving DecidableEq

/-- The events the navigation controller reacts to.  `outsideClick` is a
document click whose target lies outside both the toggle and the menu. -/
inductive NavEvent where
  | toggleClick
  | linkClick
  | outsideClick
  | resize (w : Nat)
deriving DecidableEq

/-- One navigation event, as handled by the listeners in
`setup_mobile_navigation` and the top-level resize listener: toggle
flips both `active` classes, a link click or outside click removes them,
and a resize removes them whenever the new width exceeds 768. -/
def nav_step : NavEvent → NavState → NavState
  | .toggleClick, s =>
      { s with toggleActive := !s.toggleActive, menuActive := !s.menuActive }
  | .linkClick, s => { s with toggleActive := false, menuActive := false }
  | .outsideClick, s => { s with toggleActive := false, menuActive := false }
  | .resize w, s =>
      if w > 768 then { toggleActive := false, menuActive := false, width := w }
      else { s with width := w }

/-! ## The top-level resize listener with absent elements (lines 273-279)

`document.querySelector` returns `null` when the element is absent, so
the bindings on lines 7-8 are modelled as `Option`.  Unlike
`setup_mobile_navigation` (which returns early on line 26 when either
element is missing), the resize listener dereferences `navToggle` and
`navMenu` without a guard; on `null` that dereference throws a
`TypeError`. -/

/-- An element as seen by the class-list operations. -/
structure Elem where
  classes : List String
deriving DecidableEq

/-- `e.classList.remove(c)` where `e` may be `null`: dereferencing `null`
throws. -/
def classlist_remove (e : Option Elem) (c : String) : Except String Elem :=
  match e with
  | none => Except.error "TypeError: cannot read classList of null"
  | some el => Except.ok { classes := remove_class c el.classes }

/-- The body of the top-level resize listener (lines 273-279): when the
new width exceeds 768, remove `active` from `navToggle` and then from
`navMenu`, with no existence guard. -/
def resize_listener (navToggle navMenu : Option Elem) (w : Nat) :
    Except String (Option Elem × Option Elem) :=
  if w > 768 then
    match classlist_remove navToggle "active" with
    | Except.error msg => Except.error msg
    | Except.ok t =>
        match classlist_remove navMenu "active" with
        | Except.error msg => Except.error msg
        | Except.ok m => Except.ok (some t, some m)
  else Except.ok (navToggle, navMenu)

/-- The guard on line 26 of `setup_mobile_navigation`: with either
element missing the function returns before registering any listener. -/
def mobile_nav_registers (navToggle navMenu : Option Elem) : Bool :=
  !(navToggle.isNone || navMenu.isNone)

/-! ## Project links (`setup_project_links`, lines 231-245)

The click handler reads the `href` attribute (`null` when absent); only
the exact value `"#"` prevents the default navigation and shows an
info-kind notification. -/

/-- The message shown for placeholder project links. -/
def project_links_message : String := "Project links will be updated with actual URLs"

/-- The project-link click handler acting on the document: returns
whether `preventDefault` was called, together with the document state
after the handler ran. -/
def handle_project_link_click (href : Option String) (st : DomState) :
    Bool × DomState :=
  if href = some "#" then
    (true, show_notification project_links_message "info" st)
  else (false, st)

/-! ## Helper lemmas for the claim theorems -/

lemma remove_existing_eq_nil {l : List Notif} (h : l.length ≤ 1) :
    remove_existing l = [] := by
  cases l with
  | nil => rfl
  | cons x xs =>
    cases xs with
    | nil => rfl
    | cons y ys =>
      exfalso
      simp only [List.length_cons] at h
      omega

lemma remove_elem_of_not_mem {id : Nat} {l : List Notif}
    (h : id ∉ notif_ids l) : remove_elem id l = l := by
  rw [remove_elem, List.filter_eq_self]
  intro n hn
  simp only [decide_eq_true_iff]
  intro heq
  apply h
  rw [← heq]
  exact List.mem_map_of_mem Notif.nid hn

lemma not_mem_remove_elem (id : Nat) (l : List Notif) :
    id ∉ notif_ids (remove_elem id l) := by
  intro h
  simp only [notif_ids, List.mem_map, remove_elem, List.mem_filter] at h
  obtain ⟨x, ⟨hxl, hpx⟩, hxid⟩ := h
  simp only [decide_eq_true_iff] at hpx
  exact hpx hxid

lemma notif_ids_set_transform (id2 : Nat) (t : String) (l : List Notif) :
    notif_ids (set_transform id2 t l) = notif_ids l := by
  induction l with
  | nil => rfl
  | cons x xs ih =>
    show (if x.nid = id2 then { x with transform := t } else x).nid ::
        notif_ids (set_transform id2 t xs) = x.nid :: notif_ids xs
    rw [ih]
    by_cases hx : x.nid = id2
    · rw [if_pos hx]
    · rw [if_neg hx]

/-! ## Claim theorems -/

/-- Claim C4: `is_valid_email` accepts exactly the strings of the form
"one or more non-whitespace-non-@ characters, `@`, one or more
non-whitespace-non-@ characters, `.`, one or more non-whitespace-non-@
characters", anchored at both ends; in particular it accepts "a@b.co"
and rejects "a@b", "a.com", "@b.co" and "a@b@c.co". -/
theorem email_validation_matches_pattern :
    (∀ e : String, is_valid_email e = true ↔ email_pattern_spec e.data)
    ∧ is_valid_email "a@b.co" = true
    ∧ is_valid_email "a@b" = false
    ∧ is_valid_email "a.com" = false
    ∧ is_valid_email "@b.co" = false
    ∧ is_valid_email "a@b@c.co" = false :=
  ⟨fun e => email_regex_correct e.data,
   by decide, by decide, by decide, by decide, by decide⟩

/-- Claim C2, counterexample: the submit handler checks fields with the
JavaScript falsy test, not a trimming-equivalent check, so a
whitespace-only name passes the required-field check and the submission
succeeds (one success notification, form reset) instead of producing an
error notification with no reset as the claim requires. -/
theorem whitespace_name_submit_succeeds :
    handle_submit " " "a@b.co" "hi" =
      { notifications :=
          [("Thank you for your message! I\x27ll get back to you soon.", "success")],
        did_reset := true } := by decide

/-- Claim C2 (amended): for every submission in which any of the fields is
the empty string (the JavaScript falsy check; whitespace-only values do
NOT count as empty) or the email fails validation, the handler shows
exactly one error-kind notification, never a success one, and does not
reset the form. -/
theorem invalid_submit_single_error_no_reset (name email message : String)
    (h : name = "" ∨ email = "" ∨ message = "" ∨ is_valid_email email = false) :
    (handle_submit name email message).notifications.map Prod.snd = ["error"]
    ∧ (handle_submit name email message).did_reset = false := by
  rcases h with h | h | h | h
  · simp [handle_submit, h]
  · simp [handle_submit, h]
  · simp [handle_submit, h]
  · by_cases h1 : name = ""
    · simp [handle_submit, h1]
    · by_cases h2 : email = ""
      · simp [handle_submit, h2]
      · by_cases h3 : message = ""
        · simp [handle_submit, h3]
        · simp [handle_submit, h1, h2, h3, h]

/-- Witness for `invalid_submit_single_error_no_reset` at the concrete
input name "A", email "bad-email", message "hi". -/
theorem invalid_submit_single_error_no_reset_witness :
    (handle_submit "A" "bad-email" "hi").notifications.map Prod.snd = ["error"]
    ∧ (handle_submit "A" "bad-email" "hi").did_reset = false :=
  invalid_submit_single_error_no_reset "A" "bad-email" "hi"
    (Or.inr (Or.inr (Or.inr (by decide))))

/-- Claim C3: when all three fields are non-empty and the email passes
`is_valid_email`, the handler shows exactly one success-kind notification
and resets the form. -/
theorem valid_submit_success_and_reset (name email message : String)
    (h1 : name ≠ "") (h2 : email ≠ "") (h3 : message ≠ "")
    (h4 : is_valid_email email = true) :
    handle_submit name email message =
      { notifications :=
          [("Thank you for your message! I\x27ll get back to you soon.", "success")],
        did_reset := true } := by
  simp [handle_submit, h1, h2, h3, h4]

/-- Witness for `valid_submit_success_and_reset` at name "A",
email "a@b.co", message "hi". -/
theorem valid_submit_success_and_reset_witness :
    handle_submit "A" "a@b.co" "hi" =
      { notifications :=
          [("Thank you for your message! I\x27ll get back to you soon.", "success")],
        did_reset := true } :=
  valid_submit_success_and_reset "A" "a@b.co" "hi"
    (by decide) (by decide) (by decide) (by decide)

/-- Claim C8: on every scroll event the header carries the "scrolled"
class afterwards exactly when the offset is strictly greater than 100;
offset 150 yields true, 50 yields false, and the boundary 100 yields
false. -/
theorem header_scrolled_iff_offset_gt_100 :
    (∀ (y : Int) (cs : List String),
      has_class "scrolled" (handle_scroll_header y cs) ↔ 100 < y)
    ∧ has_class "scrolled" (handle_scroll_header 150 [])
    ∧ ¬has_class "scrolled" (handle_scroll_header 50 ["scrolled"])
    ∧ ¬has_class "scrolled" (handle_scroll_header 100 ["scrolled"]) := by
  refine ⟨fun y cs => ?_, by decide, by decide, by decide⟩
  unfold has_class handle_scroll_header add_class remove_class
  by_cases h : (100 : Int) < y
  · rw [if_pos h]
    by_cases hm : "scrolled" ∈ cs <;> simp [hm, h]
  · rw [if_neg h]
    simp [List.mem_filter, h]

/-- Claim C9, counterexample: the info kind does not get a third,
externally delegated styling -- the two-way ternary in
`show_notification` gives it the same explicit warning background
`#ef4444` as the error kind. -/
theorem info_notification_uses_error_color :
    (show_notification "m" "info" dom_init).notifs.map Notif.background = ["#ef4444"]
    ∧ (show_notification "m" "error" dom_init).notifs.map Notif.background = ["#ef4444"]
    ∧ notification_background "info" = notification_background "error" := by decide

/-- Claim C9 (amended): the success kind gets the distinct affirmative
background `#10b981`, and every other kind -- error and info alike --
gets the explicit warning background `#ef4444`. -/
theorem notification_kind_colors (k : String) (h : k ≠ "success") :
    notification_background "success" = "#10b981"
    ∧ notification_background k = "#ef4444" := by
  unfold notification_background
  simp [h]

/-- Witness for `notification_kind_colors` at the kind "info". -/
theorem notification_kind_colors_witness :
    notification_background "success" = "#10b981"
    ∧ notification_background "info" = "#ef4444" :=
  notification_kind_colors "info" (by decide)

/-- Claim C10: a project-link click with href exactly "#" prevents the
default navigation and shows the info-kind placeholder notification;
any other href leaves the default navigation alone and shows nothing. -/
theorem project_link_click_behavior (href : Option String) (st : DomState) :
    (href = some "#" →
      (handle_project_link_click href st).1 = true
      ∧ (handle_project_link_click href st).2 =
          show_notification project_links_message "info" st)
    ∧ (href ≠ some "#" → handle_project_link_click href st = (false, st)) := by
  constructor
  · intro h
    simp [handle_project_link_click, h]
  · intro h
    simp [handle_project_link_click, h]

/-- Witness for `project_link_click_behavior`: href "#" on the empty
document, and a non-"#" href. -/
theorem project_link_click_behavior_witness :
    (handle_project_link_click (some "#") dom_init).1 = true
    ∧ handle_project_link_click (some "https:example") dom_init = (false, dom_init) :=
  ⟨((project_link_click_behavior (some "#") dom_init).1 rfl).1,
   (project_link_click_behavior (some "https:example") dom_init).2 (by decide)⟩

/-- Claim C1: in every reachable document state at most one notification
is attached; a call to `show_notification` leaves exactly one attached
and hard-removes every previously attached element in the same step; and
after a second call (before the first call's timers fire) exactly one
element stays attached even when any of the first notification's pending
timer actions runs. -/
theorem notification_single_instance (st : DomState) (m1 k1 m2 k2 : String)
    (h : Reachable st) :
    st.notifs.length ≤ 1
    ∧ (show_notification m1 k1 st).notifs.length = 1
    ∧ (∀ n ∈ st.notifs, n.nid ∉ notif_ids (show_notification m1 k1 st).notifs)
    ∧ (show_notification m2 k2 (show_notification m1 k1 st)).notifs.length = 1
    ∧ (∀ a : TimerAction,
        (run_action st.nextId a
          (show_notification m2 k2 (show_notification m1 k1 st))).notifs.length = 1) := by
  obtain ⟨hlen, hid⟩ := reachable_inv h
  have h1 : (show_notification m1 k1 st).notifs =
      [{ nid := st.nextId, kind := k1, message := m1,
         transform := hiddenTransform,
         background := notification_background k1 }] := by
    show remove_existing st.notifs ++ [_] = _
    rw [remove_existing_eq_nil hlen]
    rfl
  have hx1 : (show_notification m1 k1 st).nextId = st.nextId + 1 := rfl
  have h2 : (show_notification m2 k2 (show_notification m1 k1 st)).notifs =
      [{ nid := st.nextId + 1, kind := k2, message := m2,
         transform := hiddenTransform,
         background := notification_background k2 }] := by
    show remove_existing (show_notification m1 k1 st).notifs ++ [_] = _
    rw [h1]
    rfl
  have hN2 : st.nextId ∉
      notif_ids (show_notification m2 k2 (show_notification m1 k1 st)).notifs := by
    rw [h2]
    simp [notif_ids]
  refine ⟨hlen, by rw [h1]; rfl, ?_, by rw [h2]; rfl, ?_⟩
  · intro n hn
    rw [h1]
    simp only [notif_ids, List.map_cons, List.map_nil, List.mem_singleton]
    exact Nat.ne_of_lt (hid n hn)
  · intro a
    cases a with
    | animateIn =>
      show (set_transform st.nextId visibleTransform _).length = 1
      rw [set_transform_length, h2]
      rfl
    | autoDismiss =>
      rw [show run_action st.nextId TimerAction.autoDismiss
            (show_notification m2 k2 (show_notification m1 k1 st)) =
          show_notification m2 k2 (show_notification m1 k1 st) from by
        simp [run_action, hN2], h2]
      rfl
    | removeElem =>
      show (remove_elem st.nextId _).length = 1
      rw [remove_elem_of_not_mem hN2, h2]
      rfl

/-- Witness for `notification_single_instance` at the empty initial
document: two successive shows leave exactly one notification, and the
first notification's auto-dismiss action firing afterwards keeps it. -/
theorem notification_single_instance_witness :
    (show_notification "second" "error"
        (show_notification "first" "success" dom_init)).notifs.length = 1
    ∧ (run_action 0 TimerAction.autoDismiss
        (show_notification "second" "error"
          (show_notification "first" "success" dom_init))).notifs.length = 1 := by
  have h := notification_single_instance dom_init "first" "success" "second" "error"
    Reachable.init
  exact ⟨h.2.2.2.1, h.2.2.2.2 TimerAction.autoDismiss⟩

/-- Claim C5: a manual dismiss hides the notification (it stays attached
through the exit animation) and schedules its removal exactly 300ms
later; running that removal detaches it; and on an already-detached
element both the removal and the auto-dismiss callback are exact no-ops
(the auto-dismiss because of its attachment guard, the removal because
`element.remove()` on a detached element changes nothing) -- none of
these operations can throw. -/
theorem notification_dismiss_idempotent (st st2 : DomState) (n : Nat)
    (hatt : n ∈ notif_ids st.notifs) (hdet : n ∉ notif_ids st2.notifs) :
    ({ fireAt := st.now + 300, target := n, action := TimerAction.removeElem } : Timer) ∈
      (close_click n st).timers
    ∧ n ∈ notif_ids (close_click n st).notifs
    ∧ n ∉ notif_ids (run_action n TimerAction.removeElem (close_click n st)).notifs
    ∧ run_action n TimerAction.removeElem st2 = st2
    ∧ run_action n TimerAction.autoDismiss st2 = st2 := by
  refine ⟨?_, ?_, ?_, ?_, ?_⟩
  · show _ ∈ st.timers ++ [_]
    simp
  · show n ∈ notif_ids (set_transform n hiddenTransform st.notifs)
    rw [notif_ids_set_transform]
    exact hatt
  · show n ∉ notif_ids (remove_elem n (set_transform n hiddenTransform st.notifs))
    exact not_mem_remove_elem n _
  · show ({ st2 with notifs := remove_elem n st2.notifs } : DomState) = st2
    rw [remove_elem_of_not_mem hdet]
  · simp [run_action, hdet]

/-- Witness for `notification_dismiss_idempotent`: the document after one
show (its notification has identity 0) and the empty document where
identity 0 is already detached. -/
theorem notification_dismiss_idempotent_witness :
    ({ fireAt := 300, target := 0, action := TimerAction.removeElem } : Timer) ∈
      (close_click 0 (show_notification "hello" "success" dom_init)).timers
    ∧ 0 ∈ notif_ids (close_click 0 (show_notification "hello" "success" dom_init)).notifs
    ∧ 0 ∉ notif_ids (run_action 0 TimerAction.removeElem
        (close_click 0 (show_notification "hello" "success" dom_init))).notifs
    ∧ run_action 0 TimerAction.removeElem dom_init = dom_init
    ∧ run_action 0 TimerAction.autoDismiss dom_init = dom_init :=
  notification_dismiss_idempotent (show_notification "hello" "success" dom_init)
    dom_init 0 (by decide) (by decide)

/-- Claim C6: the mobile menu closes on an outside click, on a link
click, on a toggle activation from the open state, and on a resize
taking the viewport from at most 768 to above 768; and from the closed
state the only event that opens it is a toggle activation. -/
theorem mobile_menu_state_machine (s : NavState) :
    (nav_step NavEvent.outsideClick s).menuActive = false
    ∧ (nav_step NavEvent.linkClick s).menuActive = false
    ∧ (s.menuActive = true → (nav_step NavEvent.toggleClick s).menuActive = false)
    ∧ (∀ w : Nat, s.width ≤ 768 → 768 < w →
        (nav_step (NavEvent.resize w) s).menuActive = false)
    ∧ (s.menuActive = false → (nav_step NavEvent.toggleClick s).menuActive = true)
    ∧ (∀ e : NavEvent, s.menuActive = false →
        (nav_step e s).menuActive = true → e = NavEvent.toggleClick) := by
  refine ⟨rfl, rfl, ?_, ?_, ?_, ?_⟩
  · intro h
    simp [nav_step, h]
  · intro w _ hw
    simp [nav_step, hw]
  · intro h
    simp [nav_step, h]
  · intro e h he
    cases e with
    | toggleClick => rfl
    | linkClick => simp [nav_step] at he
    | outsideClick => simp [nav_step] at he
    | resize w =>
      by_cases hw : w > 768
      · simp [nav_step, hw] at he
      · simp [nav_step, hw, h] at he

/-- Witness for `mobile_menu_state_machine`: from the open state at width
500 a toggle click and a resize to 800 both close the menu, and from the
closed state a toggle click opens it. -/
theorem mobile_menu_state_machine_witness :
    (nav_step NavEvent.toggleClick
      { toggleActive := true, menuActive := true, width := 500 }).menuActive = false
    ∧ (nav_step (NavEvent.resize 800)
      { toggleActive := true, menuActive := true, width := 500 }).menuActive = false
    ∧ (nav_step NavEvent.toggleClick
      { toggleActive := false, menuActive := false, width := 500 }).menuActive = true := by
  have ho := mobile_menu_state_machine
    { toggleActive := true, menuActive := true, width := 500 }
  have hc := mobile_menu_state_machine
    { toggleActive := false, menuActive := false, width := 500 }
  exact ⟨ho.2.2.1 rfl, ho.2.2.2.1 800 (by decide) (by decide), hc.2.2.2.2.1 rfl⟩

/-- Claim C7, failing input: with the nav toggle and menu elements absent
(`querySelector` returned null) a resize event to width 1024 makes the
unguarded top-level resize listener dereference null and throw, so the
handling is not a silent no-op; the guard inside
`setup_mobile_navigation` itself does make that controller inert (it
registers nothing), and a resize that stays at or below 768 never
reaches the dereference. -/
theorem resize_listener_crashes_without_nav_elements :
    resize_listener none none 1024 =
      Except.error "TypeError: cannot read classList of null"
    ∧ resize_listener (some { classes := ["active"] }) none 1024 =
      Except.error "TypeError: cannot read classList of null"
    ∧ mobile_nav_registers none none = false
    ∧ mobile_nav_registers none (some { classes := [] }) = false
    ∧ resize_listener none none 500 = Except.ok (none, none) :=
  ⟨rfl, rfl, rfl, rfl, rfl⟩
